import Mathlib

/-!
# Verification of the Investment Snapshot Aggregator (`src/app.js`)

A shallow embedding of the single Express handler `GET /api/investment-data`
and its helper functions, together with proofs of the specified properties.

Modelling conventions:
* JavaScript numbers are idealised as exact rationals (`ℚ`); `NaN`/`Infinity`
  corner cases (division by zero) are excluded by explicit hypotheses where
  they matter.
* A JavaScript `Date` is its ECMAScript time value: milliseconds since the
  Unix epoch (`Int`).  The ambient process timezone is threaded as an explicit
  offset parameter `tz` (minutes, as returned by `getTimezoneOffset`), so that
  independence from the local timezone can be stated.
* Optional / possibly-`undefined` upstream fields are `Option` values, and
  JavaScript truthiness (`0`, `""`, `undefined` are falsy) is modelled by
  explicit `truthy...` helpers.
* The `Promise.all` join is all-or-nothing: the first (in positional order)
  rejected fetch aborts the request; the profile sub-fetch never rejects
  because `getCompanyDetails` catches internally.
-/

namespace WhatIf

set_option maxRecDepth 20000

/-! ## Civil calendar arithmetic (model of the ECMAScript UTC date getters) -/

/-- Milliseconds per day, as in the ECMAScript date algorithms. -/
def msPerDay : Int := 86400000

/-- ECMAScript `Day(t)`: the day number containing time value `t`
(floor division; `Int` division in this development is euclidean, which is
floor division for a positive divisor). -/
def jsDay (t : Int) : Int := t / msPerDay

/-- Proleptic Gregorian civil date `(year, month (1-12), day (1-31))` of a day
number counted from 1970-01-01, in the classic Fliegel–Van Flandern division
form.  This models the calendar underlying the ECMAScript
`YearFromTime` / `MonthFromTime` / `DateFromTime` operations. -/
def civilFromDay (z : Int) : Int × Int × Int :=
  let a := z + 2472632
  let b := (4 * a + 3) / 146097
  let c := a - 146097 * b / 4
  let d := (4 * c + 3) / 1461
  let e := c - 1461 * d / 4
  let m := (5 * e + 2) / 153
  (100 * b + d - 4800 + m / 10, m + 3 - 12 * (m / 10), e - (153 * m + 2) / 5 + 1)

/-- Model of `Date.prototype.getUTCFullYear` on a time value. -/
def getUTCFullYear (t : Int) : Int := (civilFromDay (jsDay t)).1

/-- Model of `Date.prototype.getUTCMonth` on a time value (0-based, as in JavaScript). -/
def getUTCMonth (t : Int) : Int := (civilFromDay (jsDay t)).2.1 - 1

/-- Model of `Date.prototype.getUTCDate` on a time value (day of month, 1-based). -/
def getUTCDate (t : Int) : Int := (civilFromDay (jsDay t)).2.2

/-- Model of `Date.prototype.getFullYear`: the local-timezone year, shifted by the
ambient offset `tz` (minutes).  Listed for contrast with the UTC getters; the
source's formatter deliberately avoids it. -/
def getFullYear (tz t : Int) : Int := getUTCFullYear (t - tz * 60000)

/-- Local-timezone month (0-based), for contrast with `getUTCMonth`. -/
def getMonth (tz t : Int) : Int := getUTCMonth (t - tz * 60000)

/-- Local-timezone day of month, for contrast with `getUTCDate`. -/
def getDate (tz t : Int) : Int := getUTCDate (t - tz * 60000)

/-- Model of `String(n).padStart(len, "0")`, the zero-padding used by the source. -/
def padStartZero (len : Nat) (s : String) : String :=
  String.mk (List.replicate (len - s.length) '0') ++ s

/-- The function `formatDateToYMD` from `src/app.js`: renders a `Date` as `YYYY-MM-DD`
using exclusively the UTC-anchored component getters.  The ambient timezone
offset `tz` is accepted (every date rendering in a JavaScript process happens
relative to some local timezone) but not consulted, which is exactly the
property claimed of this function. -/
def formatDateToYMD (tz : Int) (date : Int) : String :=
  let year := getUTCFullYear date
  let month := padStartZero 2 (toString (getUTCMonth date + 1))
  let day := padStartZero 2 (toString (getUTCDate date))
  toString year ++ "-" ++ month ++ "-" ++ day

/-! Spot checks pinning the calendar model to known dates (epoch day numbers
computed independently), including leap-day and century boundaries. -/

example : civilFromDay 0 = (1970, 1, 1) := by decide
example : civilFromDay 19783 = (2024, 3, 1) := by decide
example : civilFromDay 19782 = (2024, 2, 29) := by decide
example : civilFromDay 11016 = (2000, 2, 29) := by decide
example : civilFromDay (-25509) = (1900, 2, 28) := by decide
example : civilFromDay (-25508) = (1900, 3, 1) := by decide
example : civilFromDay (-1) = (1969, 12, 31) := by decide
example : civilFromDay (-135080) = (1600, 3, 1) := by decide
example : civilFromDay 47540 = (2100, 2, 28) := by decide
example : civilFromDay 19722 = (2023, 12, 31) := by decide
example : civilFromDay 10956 = (1999, 12, 31) := by decide
example : civilFromDay 157113 = (2400, 2, 29) := by decide
example : formatDateToYMD 0 1709251200000 = "2024-03-01" := by decide
example : formatDateToYMD 0 0 = "1970-01-01" := by decide

/-! ## Chronological order on civil dates -/

/-- Chronological (lexicographic) order on `(year, month, day)` triples. -/
def ymdLE (a b : Int × Int × Int) : Prop :=
  a.1 < b.1 ∨ (a.1 = b.1 ∧ (a.2.1 < b.2.1 ∨ (a.2.1 = b.2.1 ∧ a.2.2 ≤ b.2.2)))

theorem civil_stage1 {a b : Int} (h : a ≤ b) :
    (4 * a + 3) / 146097 < (4 * b + 3) / 146097 ∨
      ((4 * a + 3) / 146097 = (4 * b + 3) / 146097 ∧
        (0 ≤ a - 146097 * ((4 * a + 3) / 146097) / 4 ∧
         b - 146097 * ((4 * b + 3) / 146097) / 4 ≤ 36524 ∧
         a - 146097 * ((4 * a + 3) / 146097) / 4 ≤ b - 146097 * ((4 * b + 3) / 146097) / 4)) := by
  omega

theorem civil_stage2 {c c2 : Int} (h : c ≤ c2) :
    (4 * c + 3) / 1461 < (4 * c2 + 3) / 1461 ∨
      ((4 * c + 3) / 1461 = (4 * c2 + 3) / 1461 ∧
        (0 ≤ c - 1461 * ((4 * c + 3) / 1461) / 4 ∧
         c2 - 1461 * ((4 * c2 + 3) / 1461) / 4 ≤ 365 ∧
         c - 1461 * ((4 * c + 3) / 1461) / 4 ≤ c2 - 1461 * ((4 * c2 + 3) / 1461) / 4)) := by
  omega

theorem civil_stage2_bounds {c : Int} (h0 : 0 ≤ c) (h1 : c ≤ 36524) :
    0 ≤ (4 * c + 3) / 1461 ∧ (4 * c + 3) / 1461 ≤ 99 := by omega

theorem civil_stage3 {e e2 : Int} (h0 : 0 ≤ e) (h : e ≤ e2) (h1 : e2 ≤ 365) :
    ((5 * e + 2) / 153 < (5 * e2 + 2) / 153 ∨
      ((5 * e + 2) / 153 = (5 * e2 + 2) / 153 ∧
        e - (153 * ((5 * e + 2) / 153) + 2) / 5 + 1 ≤
          e2 - (153 * ((5 * e2 + 2) / 153) + 2) / 5 + 1)) := by
  omega

theorem civil_stage3_bounds {e : Int} (h0 : 0 ≤ e) (h1 : e ≤ 365) :
    0 ≤ (5 * e + 2) / 153 ∧ (5 * e + 2) / 153 ≤ 11 := by omega

theorem civil_assemble {b b2 d d2 m m2 x x2 : Int}
    (hd : 0 ≤ d ∧ d ≤ 99) (hd2 : 0 ≤ d2 ∧ d2 ≤ 99)
    (hm : 0 ≤ m ∧ m ≤ 11) (hm2 : 0 ≤ m2 ∧ m2 ≤ 11)
    (hc : b < b2 ∨ (b = b2 ∧ (d < d2 ∨ (d = d2 ∧ (m < m2 ∨ (m = m2 ∧ x ≤ x2)))))) :
    ymdLE (100 * b + d - 4800 + m / 10, m + 3 - 12 * (m / 10), x)
          (100 * b2 + d2 - 4800 + m2 / 10, m2 + 3 - 12 * (m2 / 10), x2) := by
  unfold ymdLE
  dsimp only
  omega

/-- The civil-date conversion is monotone: a later day number never yields a
chronologically earlier `(year, month, day)` triple. -/
theorem civilFromDay_mono {z z2 : Int} (h : z ≤ z2) :
    ymdLE (civilFromDay z) (civilFromDay z2) := by
  unfold civilFromDay
  dsimp only
  have s1 := civil_stage1 (a := z + 2472632) (b := z2 + 2472632) (by omega)
  rcases s1 with hb | ⟨hb, hc0, hc1, hcc⟩
  · exact civil_assemble (by omega) (by omega) (by omega) (by omega) (Or.inl (by omega))
  · have s2 := civil_stage2 hcc
    have db := civil_stage2_bounds hc0 (by omega)
    have db2 := civil_stage2_bounds (by omega) hc1
    rcases s2 with hd | ⟨hd, he0, he1, hee⟩
    · exact civil_assemble db db2 (by omega) (by omega) (Or.inr ⟨hb, Or.inl hd⟩)
    · have mb := civil_stage3_bounds he0 (by omega)
      have mb2 := civil_stage3_bounds (by omega) he1
      have s3 := civil_stage3 he0 hee he1
      rcases s3 with hm | ⟨hm, hx⟩
      · exact civil_assemble db db2 mb mb2 (Or.inr ⟨hb, Or.inr ⟨hd, Or.inl hm⟩⟩)
      · exact civil_assemble db db2 mb mb2 (Or.inr ⟨hb, Or.inr ⟨hd, Or.inr ⟨hm, hx⟩⟩⟩)

/-- Day numbers are monotone in the underlying time value. -/
theorem jsDay_mono {t t2 : Int} (h : t ≤ t2) : jsDay t ≤ jsDay t2 :=
  Int.ediv_le_ediv (by norm_num [msPerDay]) h

/-! ## JavaScript value helpers -/

/-- Truthiness of a possibly-`undefined` number: `undefined` and `0` are falsy. -/
def truthyNum (x : Option ℚ) : Bool :=
  match x with
  | none => false
  | some v => if v = 0 then false else true

/-- Truthiness of a possibly-`undefined` string: `undefined` and `""` are falsy. -/
def truthyStr (x : Option String) : Bool :=
  match x with
  | none => false
  | some v => if v = "" then false else true

/-- Evaluation of `x || d` for a possibly-`undefined` string `x` and a string default `d`. -/
def jsOrStr (x : Option String) (d : String) : String :=
  match x with
  | none => d
  | some v => if v = "" then d else v

/-- How a possibly-`undefined` string renders inside a template literal:
`undefined` interpolates as the text `"undefined"`. -/
def jsTemplateStr (x : Option String) : String := x.getD "undefined"

/-- Model of `String.prototype.toUpperCase` (ASCII, which covers ticker symbols). -/
def jsToUpper (s : String) : String := String.mk (s.data.map Char.toUpper)

/-- Floor of a rational, computably (`Int` division here is euclidean and the
denominator is positive, so this is the mathematical floor). -/
def ratFloor (q : ℚ) : Int := q.num / (q.den : Int)

/-- Evaluation of `parseFloat(x.toFixed(f))` as a single exact operation: round to `f`
decimal places, half-up ties resolved upward exactly as `Number.prototype.toFixed`
specifies ("if there are two such n, pick the larger n"). -/
def toFixedVal (f : Nat) (x : ℚ) : ℚ := (ratFloor (x * 10 ^ f + 1 / 2) : ℚ) / 10 ^ f

/-- Model of `String.prototype.includes` on character lists. -/
def listIncludes (l pat : List Char) : Bool :=
  match l with
  | [] => pat.isEmpty
  | _ :: t => pat.isPrefixOf l || listIncludes t pat

/-- Model of `s.includes(pat)` for strings. -/
def strIncludes (s pat : String) : Bool := listIncludes s.data pat.data

/-! ## Upstream data model (the yahoo-finance2 response shapes the code reads) -/

/-- One row of `yahooFinance.historical`: the trading day and adjusted close. -/
structure HistoricalRow where
  date : Int
  adjClose : ℚ
deriving DecidableEq

/-- The fields of `yahooFinance.quote` the handler reads.  `regularMarketPrice`
is used unguarded by the code, so it is modelled as present; the other two are
independently nullable. -/
structure StockQuote where
  regularMarketPrice : ℚ
  regularMarketPreviousClose : Option ℚ
  marketCap : Option ℚ
deriving DecidableEq

/-- The `assetProfile` module of `quoteSummary`. -/
structure AssetProfile where
  longBusinessSummary : Option String
  sector : Option String
  industry : Option String
  city : Option String
  country : Option String
deriving DecidableEq

/-- The `price` module of `quoteSummary`. -/
structure PriceInfo where
  longName : Option String
  exchangeName : Option String
deriving DecidableEq

/-- The `quoteSummary` result fetched by `getCompanyDetails`
(modules `assetProfile` and `price`); each module may be absent. -/
structure ProfileSummary where
  assetProfile : Option AssetProfile
  price : Option PriceInfo
deriving DecidableEq

/-- The object `getCompanyDetails` builds on success. -/
structure CompanyDetails where
  fullName : Option String
  businessSummary : Option String
  sector : Option String
  industry : Option String
  location : String
  exchange : Option String
deriving DecidableEq

/-- One annual income statement: `totalRevenue` is a number (falsy when `0`),
`endDate` is a `Date` object (truthy whenever present). -/
structure IncomeStatement where
  totalRevenue : Option ℚ
  endDate : Option Int
deriving DecidableEq

/-- The `incomeStatementHistory` module, containing the list of annual
statements (most recent first). -/
structure IncomeStatementHistoryModule where
  incomeStatementHistory : List IncomeStatement
deriving DecidableEq

/-- A wrapped numeric field carrying a `raw` value, as in `financialData`. -/
structure RawNumber where
  raw : Option ℚ
deriving DecidableEq

/-- The `financialData` module (trailing-twelve-month revenue). -/
structure FinancialData where
  totalRevenue : Option RawNumber
deriving DecidableEq

/-- The `summaryDetail` module (beta). -/
structure SummaryDetail where
  beta : Option ℚ
deriving DecidableEq

/-- The `defaultKeyStatistics` module (shares outstanding). -/
structure DefaultKeyStatistics where
  sharesOutstanding : Option ℚ
deriving DecidableEq

/-- The `quoteSummary` result for the four statistics modules; each module may
be absent and each field inside is independently nullable. -/
structure SummaryData where
  incomeStatementHistory : Option IncomeStatementHistoryModule
  summaryDetail : Option SummaryDetail
  financialData : Option FinancialData
  defaultKeyStatistics : Option DefaultKeyStatistics
deriving DecidableEq

/-- An upstream failure: yahoo-finance2 errors carry an optional `code` and an
optional `message`. -/
structure UpstreamError where
  code : Option String
  message : Option String
deriving DecidableEq

/-- The four independent upstream fetches of one request, each of which either
succeeds with its data or rejects with an error. -/
structure UpstreamFetches where
  historical : Except UpstreamError (List HistoricalRow)
  quote : Except UpstreamError StockQuote
  profile : Except UpstreamError ProfileSummary
  summaryData : Except UpstreamError SummaryData

/-- The function `getCompanyDetails` from `src/app.js`: on success builds the details
object (note the template literal for `location`: missing city or country
interpolate as the text `"undefined"`); on any fetch failure it logs and
returns `null` instead of rethrowing. -/
def getCompanyDetails (fetched : Except UpstreamError ProfileSummary) : Option CompanyDetails :=
  match fetched with
  | .error _ => none
  | .ok summary =>
    some
      { fullName := summary.price.bind PriceInfo.longName
        businessSummary := summary.assetProfile.bind AssetProfile.longBusinessSummary
        sector := summary.assetProfile.bind AssetProfile.sector
        industry := summary.assetProfile.bind AssetProfile.industry
        location := jsTemplateStr (summary.assetProfile.bind AssetProfile.city) ++ ", " ++
          jsTemplateStr (summary.assetProfile.bind AssetProfile.country)
        exchange := summary.price.bind PriceInfo.exchangeName }

/-- The `Promise.all` join of the four fetches.  It is all-or-nothing: if any
of the three fallible fetches rejects, the whole join rejects (the first, in
positional order, of the simultaneously rejected fetches is reported); the
profile sub-fetch cannot reject because `getCompanyDetails` catches
internally, and contributes `null` on failure. -/
def joinFetches (u : UpstreamFetches) :
    Except UpstreamError (List HistoricalRow × StockQuote × Option CompanyDetails × SummaryData) :=
  match u.historical, u.quote, u.summaryData with
  | .error e, _, _ => .error e
  | .ok _, .error e, _ => .error e
  | .ok _, .ok _, .error e => .error e
  | .ok h, .ok q, .ok s => .ok (h, q, getCompanyDetails u.profile, s)

/-- The lookup `summaryData.incomeStatementHistory?.incomeStatementHistory?.[0]`. -/
def latestAnnualStatementOf (sd : SummaryData) : Option IncomeStatement :=
  (sd.incomeStatementHistory.map IncomeStatementHistoryModule.incomeStatementHistory).bind
    List.head?

/-! ## Response payload shape -/

/-- The `summary` block of a successful response. -/
structure SummaryBlock where
  initialInvestment : ℚ
  currentValue : ℚ
  totalReturnDollars : ℚ
  totalReturnPercent : ℚ
  ticker : String
  startDate : String
  sharesOwned : ℚ
  requestTimestamp : String
deriving DecidableEq

/-- One entry of `chartData`. -/
structure ChartPoint where
  date : String
  value : ℚ
  price : ℚ
deriving DecidableEq

/-- The `profile` block of a successful response. -/
structure ProfileBlock where
  name : String
  sector : String
  industry : String
  summary : String
  location : String
  exchange : String
deriving DecidableEq

/-- The block `metrics.previousClose`. -/
structure PrevCloseMetric where
  value : ℚ
  asOfDate : String
deriving DecidableEq

/-- The block `metrics.marketCap`. -/
structure MarketCapMetric where
  value : Option ℚ
  asOfDate : String
deriving DecidableEq

/-- The block `metrics.totalRevenue`, with its provenance label. -/
structure RevenueMetric where
  value : Option ℚ
  asOfDate : Option String
  label : String
deriving DecidableEq

/-- The block `metrics.beta`. -/
structure BetaMetric where
  value : Option ℚ
deriving DecidableEq

/-- The `metrics` block of a successful response. -/
structure MetricsBlock where
  previousClose : PrevCloseMetric
  marketCap : MarketCapMetric
  totalRevenue : RevenueMetric
  beta : BetaMetric
deriving DecidableEq

/-- The full successful response payload. -/
structure ResultPayload where
  summary : SummaryBlock
  chartData : List ChartPoint
  profile : ProfileBlock
  metrics : MetricsBlock
deriving DecidableEq

/-- A response body: either `{ error: ... }` or the data payload. -/
inductive ResponseBody where
  | errorJson (error : String)
  | payload (result : ResultPayload)
deriving DecidableEq

/-- An HTTP response: status code and JSON body. -/
structure HttpResponse where
  status : Nat
  body : ResponseBody
deriving DecidableEq

/-- The three query parameters, each possibly absent. -/
structure QueryParams where
  ticker : Option String
  startDate : Option String
  amount : Option String
deriving DecidableEq

/-! ## The endpoint handler -/

/-- The `GET /api/investment-data` handler from `src/app.js`.

Inputs beyond the request and the upstream responses model ambient effects:
`tz` is the process timezone offset (minutes), `parseFloatFn` is the
JavaScript `parseFloat` builtin applied to the `amount` string, and `nowISO`
is `new Date().toISOString()` at handling time.

The result pairs the HTTP response with a flag recording whether the upstream
fetches were dispatched (the missing-parameter rejection happens before
`Promise.all`). -/
def investmentDataHandler (tz : Int) (parseFloatFn : String → ℚ) (nowISO : String)
    (q : QueryParams) (u : UpstreamFetches) : HttpResponse × Bool :=
  if !truthyStr q.ticker || !truthyStr q.startDate || !truthyStr q.amount then
    ({ status := 400,
       body := .errorJson "Missing required query parameters: ticker, startDate, amount" },
     false)
  else
    let ticker := q.ticker.getD ""
    let startDate := q.startDate.getD ""
    let amount := q.amount.getD ""
    match joinFetches u with
    | .error error =>
      if error.code == some "404" ||
          (error.message.map (fun msg => strIncludes msg "Not Found")).getD false then
        ({ status := 404, body := .errorJson ("Invalid ticker symbol: " ++ ticker) }, true)
      else
        ({ status := 500, body := .errorJson "An internal server error occurred." }, true)
    | .ok (historicalData, quote, profileData, summaryData) =>
      if historicalData.length = 0 then
        ({ status := 404,
           body := .errorJson "No historical data found for the given ticker and date." },
         true)
      else
        let lastRow := historicalData.getLastD ⟨0, 0⟩
        let lastTradingDayDate := formatDateToYMD tz lastRow.date
        let latestAnnualStatement := latestAnnualStatementOf summaryData
        let annualRevenue := latestAnnualStatement.bind IncomeStatement.totalRevenue
        let annualEndDate := latestAnnualStatement.bind IncomeStatement.endDate
        let ttmRevenue := (summaryData.financialData.bind FinancialData.totalRevenue).bind
          RawNumber.raw
        let revenue : Option ℚ × Option String × String :=
          if truthyNum annualRevenue && annualEndDate.isSome then
            (annualRevenue, annualEndDate.map (formatDateToYMD tz), "Annual")
          else if truthyNum ttmRevenue then
            (ttmRevenue, some lastTradingDayDate, "TTM")
          else
            (none, none, "Annual")
        let beta := summaryData.summaryDetail.bind SummaryDetail.beta
        let sharesOutstanding := summaryData.defaultKeyStatistics.bind
          DefaultKeyStatistics.sharesOutstanding
        let calculatedMarketCap :=
          if truthyNum quote.regularMarketPreviousClose && truthyNum sharesOutstanding then
            some (quote.regularMarketPreviousClose.getD 0 * sharesOutstanding.getD 0)
          else
            quote.marketCap
        let initialInvestment := parseFloatFn amount
        let startingPrice := (historicalData.headD ⟨0, 0⟩).adjClose
        let sharesPurchased := initialInvestment / startingPrice
        let currentValue := sharesPurchased * quote.regularMarketPrice
        let result : ResultPayload :=
          { summary :=
              { initialInvestment := initialInvestment
                currentValue := toFixedVal 2 currentValue
                totalReturnDollars := toFixedVal 2 (currentValue - initialInvestment)
                totalReturnPercent :=
                  toFixedVal 2 ((currentValue - initialInvestment) / initialInvestment * 100)
                ticker := jsToUpper ticker
                startDate := startDate
                sharesOwned := toFixedVal 6 sharesPurchased
                requestTimestamp := nowISO }
            chartData := historicalData.map (fun day =>
              { date := formatDateToYMD tz day.date
                value := toFixedVal 2 (sharesPurchased * day.adjClose)
                price := toFixedVal 2 day.adjClose })
            profile :=
              { name := jsOrStr (profileData.bind CompanyDetails.fullName) (jsToUpper ticker)
                sector := jsOrStr (profileData.bind CompanyDetails.sector) "N/A"
                industry := jsOrStr (profileData.bind CompanyDetails.industry) "N/A"
                summary :=
                  jsOrStr (profileData.bind CompanyDetails.businessSummary)
                    "No summary available."
                location := jsOrStr (profileData.map CompanyDetails.location) "N/A"
                exchange := jsOrStr (profileData.bind CompanyDetails.exchange) "N/A" }
            metrics :=
              { previousClose := { value := lastRow.adjClose, asOfDate := lastTradingDayDate }
                marketCap := { value := calculatedMarketCap, asOfDate := lastTradingDayDate }
                totalRevenue :=
                  { value := revenue.1, asOfDate := revenue.2.1, label := revenue.2.2 }
                beta := { value := beta } } }
        ({ status := 200, body := .payload result }, true)

/-- A response body with `summary.requestTimestamp` blanked, for stating
determinism of everything else. -/
def scrubTimestamp (b : ResponseBody) : ResponseBody :=
  match b with
  | .errorJson e => .errorJson e
  | .payload p => .payload { p with summary := { p.summary with requestTimestamp := "" } }

/-! ## Claim theorems -/

/-- C4: `formatDateToYMD` derives the `YYYY-MM-DD` string exclusively from the
UTC-anchored year, month and day components, so its output is independent of
the evaluating process's local timezone offset; in particular the time value
of 2024-03-01T00:00:00Z renders as exactly "2024-03-01" under any offset. -/
theorem date_normalization_utc (t tz tz2 : Int) :
    formatDateToYMD tz t = formatDateToYMD tz2 t ∧
    formatDateToYMD tz t =
      toString (getUTCFullYear t) ++ "-" ++
        padStartZero 2 (toString (getUTCMonth t + 1)) ++ "-" ++
        padStartZero 2 (toString (getUTCDate t)) ∧
    formatDateToYMD tz 1709251200000 = "2024-03-01" := by
  refine ⟨rfl, rfl, ?_⟩
  have h : formatDateToYMD tz 1709251200000 = formatDateToYMD 0 1709251200000 := rfl
  rw [h]
  decide

/-- C5: whenever any of the three query parameters is absent, the endpoint
answers 400 with the exact missing-parameter body, and the upstream fetches
are never dispatched (the dispatch flag is `false`). -/
theorem missing_params_reject (tz : Int) (pf : String → ℚ) (now : String)
    (q : QueryParams) (u : UpstreamFetches)
    (h : q.ticker = none ∨ q.startDate = none ∨ q.amount = none) :
    investmentDataHandler tz pf now q u =
      ({ status := 400,
         body := .errorJson "Missing required query parameters: ticker, startDate, amount" },
       false) := by
  unfold investmentDataHandler
  rcases h with h | h | h <;> rw [h] <;> simp [truthyStr]

/-- Witness for C5 at a concrete request lacking `ticker`. -/
theorem missing_params_reject_witness :
    (QueryParams.mk none (some "2020-01-01") (some "1000")).ticker = none ∧
    investmentDataHandler 0 (fun _ => 1000) "2024-01-01T00:00:00.000Z"
        (QueryParams.mk none (some "2020-01-01") (some "1000"))
        (UpstreamFetches.mk (.ok []) (.error ⟨none, none⟩) (.error ⟨none, none⟩)
          (.error ⟨none, none⟩)) =
      ({ status := 400,
         body := .errorJson "Missing required query parameters: ticker, startDate, amount" },
       false) :=
  ⟨rfl, missing_params_reject 0 (fun _ => 1000) "2024-01-01T00:00:00.000Z" _ _ (Or.inl rfl)⟩

/-- C9: two runs of the handler over identical query parameters and identical
upstream responses agree on status, dispatch flag, and the whole body apart
from `summary.requestTimestamp`. -/
theorem determinism_modulo_timestamp (tz : Int) (pf : String → ℚ) (now1 now2 : String)
    (q : QueryParams) (u : UpstreamFetches) :
    (investmentDataHandler tz pf now1 q u).1.status =
        (investmentDataHandler tz pf now2 q u).1.status ∧
      scrubTimestamp (investmentDataHandler tz pf now1 q u).1.body =
        scrubTimestamp (investmentDataHandler tz pf now2 q u).1.body ∧
      (investmentDataHandler tz pf now1 q u).2 = (investmentDataHandler tz pf now2 q u).2 := by
  rcases hval : (!truthyStr q.ticker || !truthyStr q.startDate || !truthyStr q.amount) with _ | _
  · rcases hj : joinFetches u with e | ⟨hist, quote, prof, sd⟩
    · simp only [investmentDataHandler, hval, hj, Bool.false_eq_true, if_false]
      exact ⟨trivial, trivial, trivial⟩
    · simp only [investmentDataHandler, hval, hj, Bool.false_eq_true, if_false]
      by_cases hL : hist.length = 0
      · simp only [if_pos hL]
        exact ⟨trivial, trivial, trivial⟩
      · simp only [if_neg hL]
        refine ⟨trivial, ?_, trivial⟩
        simp only [scrubTimestamp]
  · simp only [investmentDataHandler, hval, if_true]
    exact ⟨trivial, trivial, trivial⟩

/-! ## Concrete inputs for witnesses and counterexamples -/

/-- A concrete well-formed request. -/
def exampleQuery : QueryParams :=
  { ticker := some "aapl", startDate := some "2020-01-01", amount := some "1000" }

/-- A single trading day at adjusted close 100 (time value 0 = 1970-01-01). -/
def exampleHistory : List HistoricalRow := [{ date := 0, adjClose := 100 }]

/-- A live quote: price 120, previous close 50, raw market cap 1100. -/
def exampleQuote : StockQuote :=
  { regularMarketPrice := 120, regularMarketPreviousClose := some 50,
    marketCap := some 1100 }

/-- Statistics: an annual statement with revenue 1000 ending 2023-12-31
(time value 19722 days), TTM revenue 1200, beta 6/5, 20 shares outstanding. -/
def exampleSummaryData : SummaryData :=
  { incomeStatementHistory :=
      some { incomeStatementHistory :=
        [{ totalRevenue := some 1000, endDate := some 1703980800000 }] }
    summaryDetail := some { beta := some (6 / 5) }
    financialData := some { totalRevenue := some { raw := some 1200 } }
    defaultKeyStatistics := some { sharesOutstanding := some 20 } }

/-- Four upstream results: the three data fetches succeed, the profile
sub-fetch fails. -/
def exampleFetches : UpstreamFetches :=
  { historical := .ok exampleHistory
    quote := .ok exampleQuote
    profile := .error { code := none, message := some "profile fetch failed" }
    summaryData := .ok exampleSummaryData }

/-- The payload the handler produces from `exampleQuery` and `exampleFetches`
(used to exhibit concrete runs). -/
def examplePayload : ResultPayload :=
  { summary :=
      { initialInvestment := 1000, currentValue := 1200, totalReturnDollars := 200,
        totalReturnPercent := 20, ticker := "AAPL", startDate := "2020-01-01",
        sharesOwned := 10, requestTimestamp := "2024-01-01T00:00:00.000Z" }
    chartData := [{ date := "1970-01-01", value := 1000, price := 100 }]
    profile :=
      { name := "AAPL", sector := "N/A", industry := "N/A",
        summary := "No summary available.", location := "N/A", exchange := "N/A" }
    metrics :=
      { previousClose := { value := 100, asOfDate := "1970-01-01" }
        marketCap := { value := some 1000, asOfDate := "1970-01-01" }
        totalRevenue := { value := some 1000, asOfDate := some "2023-12-31", label := "Annual" }
        beta := { value := some (6 / 5) } } }

set_option maxRecDepth 20000 in
/-- The concrete run on `exampleQuery` and `exampleFetches` produces
`examplePayload`. -/
theorem examplePayload_is_run :
    (investmentDataHandler 0 (fun _ => 1000) "2024-01-01T00:00:00.000Z"
        exampleQuery exampleFetches).1.body = .payload examplePayload := by
  with_unfolding_all decide

/-- C3: on every successful run, `sharesOwned` is the parsed amount divided by
the first historical point's adjusted close rounded to 6 decimals,
`currentValue` is the (unrounded) share count times the live market price
rounded to 2 decimals, and the dollar and percent returns are computed from
the unrounded current value minus the initial investment, each rounded to 2
decimals. -/
theorem investment_calculation (tz : Int) (pf : String → ℚ) (now : String)
    (q : QueryParams) (u : UpstreamFetches)
    (hist : List HistoricalRow) (quote : StockQuote) (sd : SummaryData)
    (first : HistoricalRow)
    (ht : truthyStr q.ticker = true) (hs : truthyStr q.startDate = true)
    (ha : truthyStr q.amount = true)
    (hH : u.historical = .ok hist) (hQ : u.quote = .ok quote) (hS : u.summaryData = .ok sd)
    (hne : hist ≠ []) (hfirst : hist.head? = some first) :
    (investmentDataHandler tz pf now q u).1.status = 200 ∧
    ∃ p, (investmentDataHandler tz pf now q u).1.body = .payload p ∧
      p.summary.initialInvestment = pf (q.amount.getD "") ∧
      p.summary.sharesOwned = toFixedVal 6 (pf (q.amount.getD "") / first.adjClose) ∧
      p.summary.currentValue =
        toFixedVal 2 (pf (q.amount.getD "") / first.adjClose * quote.regularMarketPrice) ∧
      p.summary.totalReturnDollars =
        toFixedVal 2 (pf (q.amount.getD "") / first.adjClose * quote.regularMarketPrice -
          pf (q.amount.getD "")) ∧
      p.summary.totalReturnPercent =
        toFixedVal 2 ((pf (q.amount.getD "") / first.adjClose * quote.regularMarketPrice -
            pf (q.amount.getD "")) / pf (q.amount.getD "") * 100) := by
  have hd : hist.headD ⟨0, 0⟩ = first := by
    rw [List.headD_eq_head?, hfirst]
    rfl
  simp only [investmentDataHandler, joinFetches, hH, hQ, hS, ht, hs, ha, Bool.not_true,
    Bool.or_self, Bool.or_false, Bool.false_or, Bool.false_eq_true, if_false,
    List.length_eq_zero]
  rw [if_neg hne]
  refine ⟨rfl, _, rfl, ?_, ?_, ?_, ?_, ?_⟩ <;> first
    | rfl
    | simp only [hd]

set_option maxRecDepth 20000 in
/-- Witness for C3 at the concrete example, together with the numeric instance
from the spec: 1000 invested at a starting price of 100 and a live price of
120 yields 10 shares, value 1200, return 200 dollars and 20 percent. -/
theorem investment_calculation_witness :
    (truthyStr exampleQuery.ticker = true ∧ exampleHistory ≠ [] ∧
      exampleHistory.head? = some { date := 0, adjClose := 100 } ∧
      toFixedVal 6 ((1000 : ℚ) / 100) = 10 ∧
      toFixedVal 2 ((1000 : ℚ) / 100 * 120) = 1200 ∧
      toFixedVal 2 ((1000 : ℚ) / 100 * 120 - 1000) = 200 ∧
      toFixedVal 2 (((1000 : ℚ) / 100 * 120 - 1000) / 1000 * 100) = 20) ∧
    ((investmentDataHandler 0 (fun _ => 1000) "2024-01-01T00:00:00.000Z"
        exampleQuery exampleFetches).1.status = 200 ∧
     ∃ p, (investmentDataHandler 0 (fun _ => 1000) "2024-01-01T00:00:00.000Z"
        exampleQuery exampleFetches).1.body = .payload p ∧
      p.summary.initialInvestment = (fun _ => (1000 : ℚ)) (exampleQuery.amount.getD "") ∧
      p.summary.sharesOwned =
        toFixedVal 6 ((fun _ => (1000 : ℚ)) (exampleQuery.amount.getD "") /
          (HistoricalRow.mk 0 100).adjClose) ∧
      p.summary.currentValue =
        toFixedVal 2 ((fun _ => (1000 : ℚ)) (exampleQuery.amount.getD "") /
          (HistoricalRow.mk 0 100).adjClose * exampleQuote.regularMarketPrice) ∧
      p.summary.totalReturnDollars =
        toFixedVal 2 ((fun _ => (1000 : ℚ)) (exampleQuery.amount.getD "") /
            (HistoricalRow.mk 0 100).adjClose * exampleQuote.regularMarketPrice -
          (fun _ => (1000 : ℚ)) (exampleQuery.amount.getD "")) ∧
      p.summary.totalReturnPercent =
        toFixedVal 2 (((fun _ => (1000 : ℚ)) (exampleQuery.amount.getD "") /
            (HistoricalRow.mk 0 100).adjClose * exampleQuote.regularMarketPrice -
            (fun _ => (1000 : ℚ)) (exampleQuery.amount.getD "")) /
          (fun _ => (1000 : ℚ)) (exampleQuery.amount.getD "") * 100)) :=
  ⟨⟨by decide, by decide, by with_unfolding_all decide,
    by with_unfolding_all decide, by with_unfolding_all decide,
    by with_unfolding_all decide, by with_unfolding_all decide⟩,
   investment_calculation 0 (fun _ => 1000) "2024-01-01T00:00:00.000Z"
     exampleQuery exampleFetches exampleHistory exampleQuote exampleSummaryData
     { date := 0, adjClose := 100 }
     (by decide) (by decide) (by decide) rfl rfl rfl
     (by decide) (by with_unfolding_all decide)⟩

/-- C1: revenue resolution follows the three-step fallback.  If the most
recent annual income statement has a (truthy) total-revenue figure and an end
date, the `metrics.totalRevenue` block carries that value with label "Annual"
and the normalized end date; otherwise, if trailing-twelve-month revenue is
(truthy) available, it carries the TTM value with label "TTM" dated as of the
last trading day; otherwise value and date are `null` with label "Annual". -/
theorem revenue_resolution_fallback (tz : Int) (pf : String → ℚ) (now : String)
    (q : QueryParams) (u : UpstreamFetches)
    (hist : List HistoricalRow) (quote : StockQuote) (sd : SummaryData)
    (lastRow : HistoricalRow)
    (ht : truthyStr q.ticker = true) (hs : truthyStr q.startDate = true)
    (ha : truthyStr q.amount = true)
    (hH : u.historical = .ok hist) (hQ : u.quote = .ok quote) (hS : u.summaryData = .ok sd)
    (hne : hist ≠ []) (hlast : hist.getLast? = some lastRow) :
    (investmentDataHandler tz pf now q u).1.status = 200 ∧
    ∃ p, (investmentDataHandler tz pf now q u).1.body = .payload p ∧
      (∀ v e,
        (latestAnnualStatementOf sd).bind IncomeStatement.totalRevenue = some v → v ≠ 0 →
        (latestAnnualStatementOf sd).bind IncomeStatement.endDate = some e →
        p.metrics.totalRevenue =
          { value := some v, asOfDate := some (formatDateToYMD tz e), label := "Annual" }) ∧
      ((truthyNum ((latestAnnualStatementOf sd).bind IncomeStatement.totalRevenue) &&
          ((latestAnnualStatementOf sd).bind IncomeStatement.endDate).isSome) = false →
        ∀ w,
        (sd.financialData.bind FinancialData.totalRevenue).bind RawNumber.raw = some w →
        w ≠ 0 →
        p.metrics.totalRevenue =
          { value := some w, asOfDate := some (formatDateToYMD tz lastRow.date),
            label := "TTM" }) ∧
      ((truthyNum ((latestAnnualStatementOf sd).bind IncomeStatement.totalRevenue) &&
          ((latestAnnualStatementOf sd).bind IncomeStatement.endDate).isSome) = false →
        truthyNum ((sd.financialData.bind FinancialData.totalRevenue).bind RawNumber.raw) =
          false →
        p.metrics.totalRevenue = { value := none, asOfDate := none, label := "Annual" }) := by
  have hld : hist.getLastD ⟨0, 0⟩ = lastRow := by
    rw [List.getLastD_eq_getLast?, hlast]
    rfl
  simp only [investmentDataHandler, joinFetches, hH, hQ, hS, ht, hs, ha, Bool.not_true,
    Bool.or_self, Bool.or_false, Bool.false_or, Bool.false_eq_true, if_false,
    List.length_eq_zero]
  rw [if_neg hne]
  refine ⟨rfl, _, rfl, ?_, ?_, ?_⟩
  · intro v e hv hv0 he
    simp [hv, he, truthyNum, hv0]
  · intro hcond w hw hw0
    simp only [truthyNum] at hcond
    simp only [truthyNum, hcond, Bool.false_eq_true, if_false, hw, hw0, if_true, hld]
  · intro hcond httm
    simp only [truthyNum] at hcond httm
    simp only [truthyNum, hcond, httm, Bool.false_eq_true, if_false]

set_option maxRecDepth 20000 in
/-- Witness for C1 at the concrete example: an annual statement with revenue
1000 ending 2023-12-31 wins over TTM revenue 1200, giving label "Annual" and
date "2023-12-31". -/
theorem revenue_resolution_fallback_witness :
    (exampleHistory.getLast? = some { date := 0, adjClose := 100 } ∧
      (latestAnnualStatementOf exampleSummaryData).bind IncomeStatement.totalRevenue =
        some 1000 ∧
      (latestAnnualStatementOf exampleSummaryData).bind IncomeStatement.endDate =
        some 1703980800000 ∧
      formatDateToYMD 0 1703980800000 = "2023-12-31") ∧
    ((investmentDataHandler 0 (fun _ => 1000) "2024-01-01T00:00:00.000Z"
        exampleQuery exampleFetches).1.status = 200 ∧
     ∃ p, (investmentDataHandler 0 (fun _ => 1000) "2024-01-01T00:00:00.000Z"
        exampleQuery exampleFetches).1.body = .payload p ∧
      (∀ v e,
        (latestAnnualStatementOf exampleSummaryData).bind IncomeStatement.totalRevenue =
          some v → v ≠ 0 →
        (latestAnnualStatementOf exampleSummaryData).bind IncomeStatement.endDate = some e →
        p.metrics.totalRevenue =
          { value := some v, asOfDate := some (formatDateToYMD 0 e), label := "Annual" }) ∧
      ((truthyNum ((latestAnnualStatementOf exampleSummaryData).bind
            IncomeStatement.totalRevenue) &&
          ((latestAnnualStatementOf exampleSummaryData).bind
            IncomeStatement.endDate).isSome) = false →
        ∀ w,
        (exampleSummaryData.financialData.bind FinancialData.totalRevenue).bind
          RawNumber.raw = some w →
        w ≠ 0 →
        p.metrics.totalRevenue =
          { value := some w,
            asOfDate := some (formatDateToYMD 0 (HistoricalRow.mk 0 100).date),
            label := "TTM" }) ∧
      ((truthyNum ((latestAnnualStatementOf exampleSummaryData).bind
            IncomeStatement.totalRevenue) &&
          ((latestAnnualStatementOf exampleSummaryData).bind
            IncomeStatement.endDate).isSome) = false →
        truthyNum ((exampleSummaryData.financialData.bind FinancialData.totalRevenue).bind
          RawNumber.raw) = false →
        p.metrics.totalRevenue = { value := none, asOfDate := none, label := "Annual" })) :=
  ⟨⟨by with_unfolding_all decide, by with_unfolding_all decide,
    by decide, by decide⟩,
   revenue_resolution_fallback 0 (fun _ => 1000) "2024-01-01T00:00:00.000Z"
     exampleQuery exampleFetches exampleHistory exampleQuote exampleSummaryData
     { date := 0, adjClose := 100 }
     (by decide) (by decide) (by decide) rfl rfl rfl
     (by decide) (by with_unfolding_all decide)⟩

set_option maxRecDepth 20000 in
/-- C2 fails as stated: at this concrete input, previous close and shares
outstanding are both available, yet `metrics.marketCap.value` (1000, computed
from the quote field `regularMarketPreviousClose = 50` times 20 shares) is not
the product of the `metrics.previousClose` value reported elsewhere in the
response (100, the last historical adjusted close) with the share count. -/
theorem marketcap_previousclose_counterexample :
    (truthyNum exampleQuote.regularMarketPreviousClose = true ∧
      truthyNum (exampleSummaryData.defaultKeyStatistics.bind
        DefaultKeyStatistics.sharesOutstanding) = true ∧
      exampleSummaryData.defaultKeyStatistics.bind DefaultKeyStatistics.sharesOutstanding =
        some 20) ∧
    (investmentDataHandler 0 (fun _ => 1000) "2024-01-01T00:00:00.000Z"
        exampleQuery exampleFetches).1.body = .payload examplePayload ∧
    examplePayload.metrics.previousClose.value = 100 ∧
    examplePayload.metrics.marketCap.value ≠
      some (examplePayload.metrics.previousClose.value * 20) := by
  refine ⟨⟨?_, ?_, ?_⟩, examplePayload_is_run, ?_, ?_⟩
  · with_unfolding_all decide
  · with_unfolding_all decide
  · with_unfolding_all decide
  · with_unfolding_all decide
  · with_unfolding_all decide

/-- C2 (amended): if both the quote previous close and the shares-outstanding
count are (truthy) available, `metrics.marketCap.value` is the product of the
quote field `regularMarketPreviousClose` with the share count — a previous
close which is not in general the `metrics.previousClose` value (that is the
last historical adjusted close) — and otherwise it is the raw market-cap
figure from the quote. -/
theorem marketcap_resolution (tz : Int) (pf : String → ℚ) (now : String)
    (q : QueryParams) (u : UpstreamFetches)
    (hist : List HistoricalRow) (quote : StockQuote) (sd : SummaryData)
    (lastRow : HistoricalRow)
    (ht : truthyStr q.ticker = true) (hs : truthyStr q.startDate = true)
    (ha : truthyStr q.amount = true)
    (hH : u.historical = .ok hist) (hQ : u.quote = .ok quote) (hS : u.summaryData = .ok sd)
    (hne : hist ≠ []) (hlast : hist.getLast? = some lastRow) :
    (investmentDataHandler tz pf now q u).1.status = 200 ∧
    ∃ p, (investmentDataHandler tz pf now q u).1.body = .payload p ∧
      p.metrics.previousClose.value = lastRow.adjClose ∧
      ((truthyNum quote.regularMarketPreviousClose &&
          truthyNum (sd.defaultKeyStatistics.bind DefaultKeyStatistics.sharesOutstanding)) =
            true →
        p.metrics.marketCap.value =
          some (quote.regularMarketPreviousClose.getD 0 *
            (sd.defaultKeyStatistics.bind DefaultKeyStatistics.sharesOutstanding).getD 0)) ∧
      ((truthyNum quote.regularMarketPreviousClose &&
          truthyNum (sd.defaultKeyStatistics.bind DefaultKeyStatistics.sharesOutstanding)) =
            false →
        p.metrics.marketCap.value = quote.marketCap) := by
  have hld : hist.getLastD ⟨0, 0⟩ = lastRow := by
    rw [List.getLastD_eq_getLast?, hlast]
    rfl
  simp only [investmentDataHandler, joinFetches, hH, hQ, hS, ht, hs, ha, Bool.not_true,
    Bool.or_self, Bool.or_false, Bool.false_or, Bool.false_eq_true, if_false,
    List.length_eq_zero]
  rw [if_neg hne]
  refine ⟨rfl, _, rfl, by simp only [hld], ?_, ?_⟩
  · intro hcond
    simp [hcond]
  · intro hcond
    simp only [hcond, Bool.false_eq_true, if_false]

/-- Witness for the amended C2 at the concrete example: previous close 50 and
20 shares outstanding give market cap 1000 even though the raw quote market
cap is 1100. -/
theorem marketcap_resolution_witness :
    ((truthyNum exampleQuote.regularMarketPreviousClose &&
        truthyNum (exampleSummaryData.defaultKeyStatistics.bind
          DefaultKeyStatistics.sharesOutstanding)) = true ∧
      exampleQuote.marketCap = some 1100) ∧
    ((investmentDataHandler 0 (fun _ => 1000) "2024-01-01T00:00:00.000Z"
        exampleQuery exampleFetches).1.status = 200 ∧
     ∃ p, (investmentDataHandler 0 (fun _ => 1000) "2024-01-01T00:00:00.000Z"
        exampleQuery exampleFetches).1.body = .payload p ∧
      p.metrics.previousClose.value = (HistoricalRow.mk 0 100).adjClose ∧
      ((truthyNum exampleQuote.regularMarketPreviousClose &&
          truthyNum (exampleSummaryData.defaultKeyStatistics.bind
            DefaultKeyStatistics.sharesOutstanding)) = true →
        p.metrics.marketCap.value =
          some (exampleQuote.regularMarketPreviousClose.getD 0 *
            (exampleSummaryData.defaultKeyStatistics.bind
              DefaultKeyStatistics.sharesOutstanding).getD 0)) ∧
      ((truthyNum exampleQuote.regularMarketPreviousClose &&
          truthyNum (exampleSummaryData.defaultKeyStatistics.bind
            DefaultKeyStatistics.sharesOutstanding)) = false →
        p.metrics.marketCap.value = exampleQuote.marketCap)) :=
  ⟨⟨by with_unfolding_all decide, by with_unfolding_all decide⟩,
   marketcap_resolution 0 (fun _ => 1000) "2024-01-01T00:00:00.000Z"
     exampleQuery exampleFetches exampleHistory exampleQuote exampleSummaryData
     { date := 0, adjClose := 100 }
     (by decide) (by decide) (by decide) rfl rfl rfl
     (by decide) (by with_unfolding_all decide)⟩

/-- Rendering of a civil `(year, month, day)` triple as `YYYY-MM-DD`. -/
def renderYMD (ymd : Int × Int × Int) : String :=
  toString ymd.1 ++ "-" ++ padStartZero 2 (toString ymd.2.1) ++ "-" ++
    padStartZero 2 (toString ymd.2.2)

/-- C7: on every successful run, `chartData` has exactly one entry per
upstream historical point, in the same order (entry `i` renders the date of
upstream row `i`); every date string is the rendering of the civil date of its
row; and whenever the upstream series is chronologically ordered by timestamp
(as the provider returns it), the corresponding civil dates are
chronologically non-decreasing. -/
theorem chartdata_order (tz : Int) (pf : String → ℚ) (now : String)
    (q : QueryParams) (u : UpstreamFetches)
    (hist : List HistoricalRow) (quote : StockQuote) (sd : SummaryData)
    (ht : truthyStr q.ticker = true) (hs : truthyStr q.startDate = true)
    (ha : truthyStr q.amount = true)
    (hH : u.historical = .ok hist) (hQ : u.quote = .ok quote) (hS : u.summaryData = .ok sd)
    (hne : hist ≠ []) :
    (investmentDataHandler tz pf now q u).1.status = 200 ∧
    ∃ p, (investmentDataHandler tz pf now q u).1.body = .payload p ∧
      p.chartData.length = hist.length ∧
      (∀ i (h1 : i < p.chartData.length) (h2 : i < hist.length),
        (p.chartData.get ⟨i, h1⟩).date = formatDateToYMD tz (hist.get ⟨i, h2⟩).date) ∧
      (∀ t, formatDateToYMD tz t = renderYMD (civilFromDay (jsDay t))) ∧
      (List.Chain' (fun r r2 => r.date ≤ r2.date) hist →
        List.Chain' ymdLE (hist.map (fun r => civilFromDay (jsDay r.date)))) := by
  simp only [investmentDataHandler, joinFetches, hH, hQ, hS, ht, hs, ha, Bool.not_true,
    Bool.or_self, Bool.or_false, Bool.false_or, Bool.false_eq_true, if_false,
    List.length_eq_zero]
  rw [if_neg hne]
  refine ⟨rfl, _, rfl, by simp, ?_, ?_, ?_⟩
  · intro i h1 h2
    simp only [List.get_eq_getElem, List.getElem_map]
  · intro t
    simp only [formatDateToYMD, renderYMD, getUTCFullYear, getUTCMonth, getUTCDate,
      sub_add_cancel]
  · intro hsort
    rw [List.chain'_map]
    exact List.Chain'.imp (fun a b h => civilFromDay_mono (jsDay_mono h)) hsort

/-- Witness for C7 at the concrete example (a single-day series). -/
theorem chartdata_order_witness :
    (truthyStr exampleQuery.ticker = true ∧ exampleHistory ≠ []) ∧
    ((investmentDataHandler 0 (fun _ => 1000) "2024-01-01T00:00:00.000Z"
        exampleQuery exampleFetches).1.status = 200 ∧
     ∃ p, (investmentDataHandler 0 (fun _ => 1000) "2024-01-01T00:00:00.000Z"
        exampleQuery exampleFetches).1.body = .payload p ∧
      p.chartData.length = exampleHistory.length ∧
      (∀ i (h1 : i < p.chartData.length) (h2 : i < exampleHistory.length),
        (p.chartData.get ⟨i, h1⟩).date =
          formatDateToYMD 0 (exampleHistory.get ⟨i, h2⟩).date) ∧
      (∀ t, formatDateToYMD 0 t = renderYMD (civilFromDay (jsDay t))) ∧
      (List.Chain' (fun r r2 => r.date ≤ r2.date) exampleHistory →
        List.Chain' ymdLE (exampleHistory.map (fun r => civilFromDay (jsDay r.date))))) :=
  ⟨⟨by decide, by with_unfolding_all decide⟩,
   chartdata_order 0 (fun _ => 1000) "2024-01-01T00:00:00.000Z"
     exampleQuery exampleFetches exampleHistory exampleQuote exampleSummaryData
     (by decide) (by decide) (by decide) rfl rfl rfl
     (by with_unfolding_all decide)⟩

/-- C8: when the profile sub-fetch fails, `getCompanyDetails` returns `null`,
the request still succeeds, and the profile block carries the field-level
fallback defaults (the uppercased ticker as name, "N/A" and the
"No summary available." text). -/
theorem profile_fault_tolerance (tz : Int) (pf : String → ℚ) (now : String)
    (q : QueryParams) (u : UpstreamFetches)
    (hist : List HistoricalRow) (quote : StockQuote) (sd : SummaryData)
    (perr : UpstreamError)
    (ht : truthyStr q.ticker = true) (hs : truthyStr q.startDate = true)
    (ha : truthyStr q.amount = true)
    (hH : u.historical = .ok hist) (hQ : u.quote = .ok quote) (hS : u.summaryData = .ok sd)
    (hne : hist ≠ []) (hP : u.profile = .error perr) :
    getCompanyDetails u.profile = none ∧
    (investmentDataHandler tz pf now q u).1.status = 200 ∧
    ∃ p, (investmentDataHandler tz pf now q u).1.body = .payload p ∧
      p.profile =
        { name := jsToUpper (q.ticker.getD ""), sector := "N/A", industry := "N/A",
          summary := "No summary available.", location := "N/A", exchange := "N/A" } := by
  refine ⟨by rw [hP]; rfl, ?_⟩
  simp only [investmentDataHandler, joinFetches, hH, hQ, hS, hP, getCompanyDetails, ht, hs,
    ha, Bool.not_true, Bool.or_self, Bool.or_false, Bool.false_or, Bool.false_eq_true,
    if_false, List.length_eq_zero]
  rw [if_neg hne]
  exact ⟨rfl, _, rfl, rfl⟩

/-- Witness for C8 at the concrete example (the profile fetch errors, and the
request succeeds with the fallback profile block). -/
theorem profile_fault_tolerance_witness :
    (exampleFetches.profile =
        .error { code := none, message := some "profile fetch failed" } ∧
      jsToUpper (exampleQuery.ticker.getD "") = "AAPL") ∧
    (getCompanyDetails exampleFetches.profile = none ∧
     (investmentDataHandler 0 (fun _ => 1000) "2024-01-01T00:00:00.000Z"
        exampleQuery exampleFetches).1.status = 200 ∧
     ∃ p, (investmentDataHandler 0 (fun _ => 1000) "2024-01-01T00:00:00.000Z"
        exampleQuery exampleFetches).1.body = .payload p ∧
      p.profile =
        { name := jsToUpper (exampleQuery.ticker.getD ""), sector := "N/A",
          industry := "N/A", summary := "No summary available.", location := "N/A",
          exchange := "N/A" }) :=
  ⟨⟨rfl, by decide⟩,
   profile_fault_tolerance 0 (fun _ => 1000) "2024-01-01T00:00:00.000Z"
     exampleQuery exampleFetches exampleHistory exampleQuote exampleSummaryData
     { code := none, message := some "profile fetch failed" }
     (by decide) (by decide) (by decide) rfl rfl rfl
     (by with_unfolding_all decide) rfl⟩

/-- The interpolated location of a profile is never the empty string (it
always contains ", "), so the `|| "N/A"` fallback never replaces it. -/
theorem interpolated_location_ne_empty (x y : Option String) :
    jsTemplateStr x ++ ", " ++ jsTemplateStr y ≠ "" := by
  intro h
  have hl := congrArg String.length h
  rw [String.length_append, String.length_append] at hl
  have h2 : String.length ", " = 2 := by decide
  have h0 : String.length "" = 0 := by decide
  rw [h2, h0] at hl
  omega

/-- C10: when the profile fetch succeeds, `profile.location` is the template
interpolation of city and country (missing components render as the text
"undefined"), and in particular when both are absent it is the non-empty
string "undefined, undefined" rather than the "N/A" fallback. -/
theorem location_undefined_interpolation (tz : Int) (pf : String → ℚ) (now : String)
    (q : QueryParams) (u : UpstreamFetches)
    (hist : List HistoricalRow) (quote : StockQuote) (sd : SummaryData)
    (ps : ProfileSummary)
    (ht : truthyStr q.ticker = true) (hs : truthyStr q.startDate = true)
    (ha : truthyStr q.amount = true)
    (hH : u.historical = .ok hist) (hQ : u.quote = .ok quote) (hS : u.summaryData = .ok sd)
    (hne : hist ≠ []) (hP : u.profile = .ok ps) :
    (investmentDataHandler tz pf now q u).1.status = 200 ∧
    ∃ p, (investmentDataHandler tz pf now q u).1.body = .payload p ∧
      p.profile.location =
        jsTemplateStr (ps.assetProfile.bind AssetProfile.city) ++ ", " ++
          jsTemplateStr (ps.assetProfile.bind AssetProfile.country) ∧
      (ps.assetProfile.bind AssetProfile.city = none →
        ps.assetProfile.bind AssetProfile.country = none →
        p.profile.location = "undefined, undefined") := by
  simp only [investmentDataHandler, joinFetches, hH, hQ, hS, hP, getCompanyDetails, ht, hs,
    ha, Bool.not_true, Bool.or_self, Bool.or_false, Bool.false_or, Bool.false_eq_true,
    if_false, List.length_eq_zero]
  rw [if_neg hne]
  refine ⟨rfl, _, rfl, ?_, ?_⟩
  · simp only [Option.map_some', jsOrStr]
    rw [if_neg (interpolated_location_ne_empty _ _)]
  · intro hc hcc
    simp only [Option.map_some', jsOrStr, hc, hcc]
    rw [if_neg (interpolated_location_ne_empty _ _)]
    rfl

/-- A successful profile fetch whose asset profile lacks both city and
country. -/
def exampleProfileSummary : ProfileSummary :=
  { assetProfile :=
      some { longBusinessSummary := some "Designs smartphones.", sector := some "Technology",
             industry := some "Consumer Electronics", city := none, country := none }
    price := some { longName := some "Apple Inc.", exchangeName := some "NasdaqGS" } }

/-- The example fetches with a successful profile fetch lacking city and
country. -/
def exampleFetchesWithProfile : UpstreamFetches :=
  { historical := .ok exampleHistory
    quote := .ok exampleQuote
    profile := .ok exampleProfileSummary
    summaryData := .ok exampleSummaryData }

/-- Witness for C10 at a profile lacking city and country. -/
theorem location_undefined_interpolation_witness :
    (exampleProfileSummary.assetProfile.bind AssetProfile.city = none ∧
      exampleProfileSummary.assetProfile.bind AssetProfile.country = none) ∧
    ((investmentDataHandler 0 (fun _ => 1000) "2024-01-01T00:00:00.000Z"
        exampleQuery exampleFetchesWithProfile).1.status = 200 ∧
     ∃ p, (investmentDataHandler 0 (fun _ => 1000) "2024-01-01T00:00:00.000Z"
        exampleQuery exampleFetchesWithProfile).1.body = .payload p ∧
      p.profile.location =
        jsTemplateStr (exampleProfileSummary.assetProfile.bind AssetProfile.city) ++ ", " ++
          jsTemplateStr (exampleProfileSummary.assetProfile.bind AssetProfile.country) ∧
      (exampleProfileSummary.assetProfile.bind AssetProfile.city = none →
        exampleProfileSummary.assetProfile.bind AssetProfile.country = none →
        p.profile.location = "undefined, undefined")) :=
  ⟨⟨by decide, by decide⟩,
   location_undefined_interpolation 0 (fun _ => 1000) "2024-01-01T00:00:00.000Z"
     exampleQuery exampleFetchesWithProfile exampleHistory exampleQuote exampleSummaryData
     exampleProfileSummary
     (by decide) (by decide) (by decide) rfl rfl rfl
     (by with_unfolding_all decide) rfl⟩

/-- C6: with valid parameters, a run whose fetches all succeed but whose
historical series is empty answers 404 with the "No historical data found"
body; a run whose join fails answers 404 with the "Invalid ticker symbol" body
exactly when the error carries code "404" or a message containing
"Not Found", and the generic 500 body otherwise. -/
theorem not_found_error_taxonomy (tz : Int) (pf : String → ℚ) (now : String)
    (q : QueryParams)
    (ht : truthyStr q.ticker = true) (hs : truthyStr q.startDate = true)
    (ha : truthyStr q.amount = true) :
    (∀ u (hist : List HistoricalRow) (quote : StockQuote) (sd : SummaryData),
      u.historical = .ok hist → u.quote = .ok quote → u.summaryData = .ok sd →
      hist = [] →
      investmentDataHandler tz pf now q u =
        ({ status := 404,
           body := .errorJson "No historical data found for the given ticker and date." },
         true)) ∧
    (∀ u (e : UpstreamError), joinFetches u = .error e →
      ((e.code == some "404" ||
          (e.message.map (fun msg => strIncludes msg "Not Found")).getD false) = true →
        investmentDataHandler tz pf now q u =
          ({ status := 404, body := .errorJson ("Invalid ticker symbol: " ++ q.ticker.getD "") },
           true)) ∧
      ((e.code == some "404" ||
          (e.message.map (fun msg => strIncludes msg "Not Found")).getD false) = false →
        investmentDataHandler tz pf now q u =
          ({ status := 500, body := .errorJson "An internal server error occurred." },
           true))) := by
  constructor
  · intro u hist quote sd hH hQ hS hemp
    subst hemp
    simp only [investmentDataHandler, joinFetches, hH, hQ, hS, ht, hs, ha, Bool.not_true,
      Bool.or_self, Bool.or_false, Bool.false_or, Bool.false_eq_true, if_false,
      List.length_nil, if_true]
  · intro u e hj
    constructor
    · intro hcond
      simp only [investmentDataHandler, hj, hcond, ht, hs, ha, Bool.not_true, Bool.or_self,
        Bool.or_false, Bool.false_or, Bool.false_eq_true, if_false, if_true]
    · intro hcond
      simp only [investmentDataHandler, hj, hcond, ht, hs, ha, Bool.not_true, Bool.or_self,
        Bool.or_false, Bool.false_or, Bool.false_eq_true, if_false]

/-- Upstream run with all fetches succeeding but an empty historical series. -/
def noHistoryFetches : UpstreamFetches :=
  { historical := .ok []
    quote := .ok exampleQuote
    profile := .error { code := none, message := none }
    summaryData := .ok exampleSummaryData }

/-- A not-found upstream error. -/
def notFoundError : UpstreamError := { code := some "404", message := some "Not Found" }

/-- A generic upstream error (neither code 404 nor a not-found message). -/
def genericUpstreamError : UpstreamError :=
  { code := none, message := some "socket hang up" }

/-- Upstream run where every fetch rejects with the not-found error. -/
def notFoundFetches : UpstreamFetches :=
  { historical := .error notFoundError, quote := .error notFoundError
    profile := .error notFoundError, summaryData := .error notFoundError }

/-- Upstream run where every fetch rejects with the generic error. -/
def failedFetches : UpstreamFetches :=
  { historical := .error genericUpstreamError, quote := .error genericUpstreamError
    profile := .error genericUpstreamError, summaryData := .error genericUpstreamError }

/-- Witness for C6 at three concrete runs: empty history, a not-found error,
and a generic failure. -/
theorem not_found_error_taxonomy_witness :
    investmentDataHandler 0 (fun _ => 1000) "2024-01-01T00:00:00.000Z"
        exampleQuery noHistoryFetches =
      ({ status := 404,
         body := .errorJson "No historical data found for the given ticker and date." },
       true) ∧
    investmentDataHandler 0 (fun _ => 1000) "2024-01-01T00:00:00.000Z"
        exampleQuery notFoundFetches =
      ({ status := 404,
         body := .errorJson ("Invalid ticker symbol: " ++ exampleQuery.ticker.getD "") },
       true) ∧
    investmentDataHandler 0 (fun _ => 1000) "2024-01-01T00:00:00.000Z"
        exampleQuery failedFetches =
      ({ status := 500, body := .errorJson "An internal server error occurred." }, true) :=
  ⟨(not_found_error_taxonomy 0 (fun _ => 1000) "2024-01-01T00:00:00.000Z" exampleQuery
      (by decide) (by decide) (by decide)).1
    noHistoryFetches [] exampleQuote exampleSummaryData rfl rfl rfl rfl,
   ((not_found_error_taxonomy 0 (fun _ => 1000) "2024-01-01T00:00:00.000Z" exampleQuery
      (by decide) (by decide) (by decide)).2
    notFoundFetches notFoundError rfl).1 (by decide),
   ((not_found_error_taxonomy 0 (fun _ => 1000) "2024-01-01T00:00:00.000Z" exampleQuery
      (by decide) (by decide) (by decide)).2
    failedFetches genericUpstreamError rfl).2 (by decide)⟩

end WhatIf
